import Mathlib

/-!
Verification of the spiderpool control-plane decision logic.

This file gives a shallow embedding, in Lean 4, of the pure decision
functions of the repository:

* `pkg/applicationcontroller` helpers (`SubnetPoolName`, `GetPoolIPNumber`,
  `CalculateJobPodNum`, `IsDefaultIPPoolMode`, `containsDuplicate`,
  `mutateAndValidateSubnetAnno`, `ShouldReclaimIPPool`,
  `GetSubnetAnnoConfig`),
* `pkg/podmanager.GetPodTopController` (the Kubernetes client is modelled
  as a record of fetch functions, fetch failures as `Except.error`),
* `pkg/subnetmanager` subnet webhook `ValidateUpdate` (the structural
  validator, whose body is not part of the sample, is a parameter).

Go strings are modelled as Lean `String` (a wrapper around `List Char`);
Go byte-wise operations are written out on `.data`.  Go's `int` is
modelled as `Int` with the `strconv.Atoi` 64-bit range check made
explicit.  Fallible Go functions returning `(T, error)` are modelled as
`Except String T` where the `String` carries the error message.
-/

/-! ### Go standard-library primitives used by the embedded code -/

/-- Go `strings.Cut(s, sep)` for a one-character separator, on the char
list: `some (before, after)` when the separator occurs (split at its
first occurrence), `none` otherwise. -/
def cutList (c : Char) : List Char → Option (List Char × List Char)
  | [] => none
  | x :: xs =>
    if x = c then some ([], xs)
    else
      match cutList c xs with
      | some (b, a) => some (x :: b, a)
      | none => none

/-- Go `strings.Split(s, sep)` for a one-character separator: the list of
maximal separator-free segments (always non-empty; `[[]]` for the empty
string, exactly as in Go). -/
def splitOnChar (c : Char) : List Char → List (List Char)
  | [] => [[]]
  | x :: xs =>
    if x = c then [] :: splitOnChar c xs
    else
      match splitOnChar c xs with
      | h :: t => (x :: h) :: t
      | [] => [[x]]

/-- Go `strings.ToLower`.  `Char.toLower` matches Go on the ASCII range,
which is the domain of Kubernetes kind/namespace/object names and UIDs. -/
def goToLower (s : String) : String := ⟨s.data.map Char.toLower⟩

/-- Largest Go `int` (64-bit) value. -/
def goMaxInt : Int := 9223372036854775807

/-- Smallest Go `int` (64-bit) value. -/
def goMinInt : Int := -9223372036854775808

/-- The numeric value of a digit run, most significant digit first. -/
def digitsToNat (ds : List Char) : Nat :=
  ds.foldl (fun n c => n * 10 + (c.toNat - '0'.toNat)) 0

/-- Go `strconv.Atoi`: an optional single leading sign, then one or more
decimal digits, within the 64-bit `int` range; `none` models a non-nil
`error` result (both syntax and range errors). -/
def goAtoi (s : List Char) : Option Int :=
  let (neg, ds) : Bool × List Char :=
    match s with
    | '+' :: r => (false, r)
    | '-' :: r => (true, r)
    | r => (false, r)
  if ds = [] then none
  else if ds.all Char.isDigit then
    let v : Int := if neg then -(digitsToNat ds : Int) else (digitsToNat ds : Int)
    if v < goMinInt ∨ v > goMaxInt then none else some v
  else none

/-- Go `strconv.ParseBool`: the twelve accepted literals, `none` for
anything else. -/
def goParseBool (s : String) : Option Bool :=
  if s = "1" ∨ s = "t" ∨ s = "T" ∨ s = "TRUE" ∨ s = "true" ∨ s = "True" then some true
  else if s = "0" ∨ s = "f" ∨ s = "F" ∨ s = "FALSE" ∨ s = "false" ∨ s = "False" then some false
  else none

/-- Go's byte-wise lexicographic `<=` on strings, written on char lists
(UTF-8 byte order and code-point order agree). -/
def goLeb : List Char → List Char → Bool
  | [], _ => true
  | _ :: _, [] => false
  | a :: as, b :: bs => if a = b then goLeb as bs else decide (a < b)

theorem goLeb_total (a b : List Char) : goLeb a b = true ∨ goLeb b a = true := by
  induction a generalizing b with
  | nil => exact Or.inl rfl
  | cons x xs ih =>
    cases b with
    | nil => exact Or.inr rfl
    | cons y ys =>
      by_cases hxy : x = y
      · subst hxy
        rcases ih ys with h | h
        · exact Or.inl (by simpa [goLeb] using h)
        · exact Or.inr (by simpa [goLeb] using h)
      · rcases lt_trichotomy x y with h | h | h
        · exact Or.inl (by simp [goLeb, hxy, h])
        · exact absurd h hxy
        · exact Or.inr (by simp [goLeb, Ne.symm hxy, h])

theorem goLeb_antisymm {a b : List Char} (h1 : goLeb a b = true) (h2 : goLeb b a = true) :
    a = b := by
  induction a generalizing b with
  | nil =>
    cases b with
    | nil => rfl
    | cons y ys => simp [goLeb] at h2
  | cons x xs ih =>
    cases b with
    | nil => simp [goLeb] at h1
    | cons y ys =>
      by_cases hxy : x = y
      · subst hxy
        simp only [goLeb, if_pos rfl] at h1 h2
        exact congrArg (x :: ·) (ih h1 h2)
      · simp only [goLeb, if_neg hxy, if_neg (Ne.symm hxy), decide_eq_true_iff] at h1 h2
        exact absurd h2 (not_lt_of_lt h1)

theorem goLeb_trans {a b c : List Char} (h1 : goLeb a b = true) (h2 : goLeb b c = true) :
    goLeb a c = true := by
  induction a generalizing b c with
  | nil => rfl
  | cons x xs ih =>
    cases b with
    | nil => simp [goLeb] at h1
    | cons y ys =>
      cases c with
      | nil => simp [goLeb] at h2
      | cons z zs =>
        by_cases hxy : x = y
        · subst hxy
          simp only [goLeb, if_pos rfl] at h1
          by_cases hyz : x = z
          · subst hyz
            simp only [goLeb, if_pos rfl] at h2 ⊢
            exact ih h1 h2
          · simp only [goLeb, if_neg hyz] at h2 ⊢
            exact h2
        · simp only [goLeb, if_neg hxy, decide_eq_true_iff] at h1
          by_cases hyz : y = z
          · subst hyz
            simp [goLeb, hxy, h1]
          · simp only [goLeb, if_neg hyz, decide_eq_true_iff] at h2
            have hlt : x < z := lt_trans h1 h2
            simp [goLeb, ne_of_lt hlt, hlt]

/-! ### Go `sort.Strings` and the duplicate scan

`containsDuplicate` in the source sorts its argument with `sort.Strings`
and then scans for a pair of equal neighbours.  Over a linear order the
sorted arrangement of a string slice is unique as a list, so insertion
sort below produces exactly the list `sort.Strings` produces. -/

/-- Insert a string into a `goLeb`-sorted list, keeping it sorted. -/
def orderedInsertStr (a : String) : List String → List String
  | [] => [a]
  | b :: t => if goLeb a.data b.data then a :: b :: t else b :: orderedInsertStr a t

/-- Go `sort.Strings` (ascending byte-wise order), as insertion sort. -/
def sortStrings : List String → List String
  | [] => []
  | a :: t => orderedInsertStr a (sortStrings t)

/-- The adjacent-equality scan of the source's `containsDuplicate` loop. -/
def hasAdjacentDup : List String → Bool
  | a :: b :: t => if a = b then true else hasAdjacentDup (b :: t)
  | _ => false

/-- `containsDuplicate` (source lines 447-455): sort, then look for two
equal neighbours. -/
def containsDuplicate (arr : List String) : Bool :=
  hasAdjacentDup (sortStrings arr)

theorem orderedInsertStr_perm (a : String) (l : List String) :
    List.Perm (orderedInsertStr a l) (a :: l) := by
  induction l with
  | nil => rfl
  | cons b t ih =>
    by_cases h : goLeb a.data b.data
    · simp [orderedInsertStr, h]
    · simp only [orderedInsertStr, if_neg h]
      exact ((ih.cons b).trans (List.Perm.swap a b t))

theorem sortStrings_perm (l : List String) : List.Perm (sortStrings l) l := by
  induction l with
  | nil => rfl
  | cons a t ih =>
    exact (orderedInsertStr_perm a (sortStrings t)).trans (ih.cons a)

theorem orderedInsertStr_pairwise (a : String) (l : List String)
    (h : l.Pairwise (fun x y => goLeb x.data y.data = true)) :
    (orderedInsertStr a l).Pairwise (fun x y => goLeb x.data y.data = true) := by
  induction l with
  | nil => simp [orderedInsertStr]
  | cons b t ih =>
    rcases List.pairwise_cons.mp h with ⟨hb, ht⟩
    by_cases hab : goLeb a.data b.data
    · simp only [orderedInsertStr, if_pos hab]
      refine List.pairwise_cons.mpr ⟨?_, h⟩
      intro x hx
      rcases List.mem_cons.mp hx with rfl | hx
      · exact hab
      · exact goLeb_trans hab (hb x hx)
    · simp only [orderedInsertStr, if_neg hab]
      refine List.pairwise_cons.mpr ⟨?_, ih ht⟩
      intro x hx
      have hx' : x ∈ a :: t := ((orderedInsertStr_perm a t).mem_iff).mp hx
      rcases List.mem_cons.mp hx' with rfl | hx'
      · rcases goLeb_total x.data b.data with h' | h'
        · exact absurd h' hab
        · exact h'
      · exact hb x hx'

theorem sortStrings_pairwise (l : List String) :
    (sortStrings l).Pairwise (fun x y => goLeb x.data y.data = true) := by
  induction l with
  | nil => exact List.Pairwise.nil
  | cons a t ih => exact orderedInsertStr_pairwise a (sortStrings t) ih

theorem hasAdjacentDup_eq_true_iff (l : List String)
    (h : l.Pairwise (fun x y => goLeb x.data y.data = true)) :
    hasAdjacentDup l = true ↔ ¬ l.Nodup := by
  induction l with
  | nil => simp [hasAdjacentDup]
  | cons a t ih =>
    cases t with
    | nil => simp [hasAdjacentDup]
    | cons b t2 =>
      rcases List.pairwise_cons.mp h with ⟨ha, h2⟩
      by_cases hab : a = b
      · subst hab
        simp [hasAdjacentDup]
      · rw [show hasAdjacentDup (a :: b :: t2) = hasAdjacentDup (b :: t2) by
          simp [hasAdjacentDup, hab]]
        rw [ih h2]
        constructor
        · intro hnd hnd2
          exact hnd (List.Nodup.of_cons hnd2)
        · intro hnd hnd2
          apply hnd
          refine List.nodup_cons.mpr ⟨?_, hnd2⟩
          intro hmem
          rcases List.mem_cons.mp hmem with rfl | hmem
          · exact hab rfl
          · have h1 : goLeb a.data b.data = true := ha b (List.mem_cons_self b t2)
            have h2' : goLeb b.data a.data = true :=
              (List.pairwise_cons.mp h2).1 a hmem
            exact hab (String.ext (goLeb_antisymm h1 h2'))

/-- The duplicate scan finds a duplicate exactly when the list is not
`Nodup`: the bridge between the source's sorted-neighbour test and the
spec's "two entries with equal value". -/
theorem containsDuplicate_eq_true_iff (arr : List String) :
    containsDuplicate arr = true ↔ ¬ arr.Nodup := by
  rw [containsDuplicate, hasAdjacentDup_eq_true_iff _ (sortStrings_pairwise arr)]
  exact not_congr (sortStrings_perm arr).nodup_iff

/-! ### The `controllers` utils (src/unnamed/part_001, package `controllers`) -/

deriving instance DecidableEq for Except

/-- Annotation keys and defaults from the repository's `constant` package
(consumed by the sample; exact values do not affect any claim). -/
def AnnoSpiderSubnet : String := "ipam.spidernet.io/subnet"

/-- Pod annotation key selecting several subnets, one per interface. -/
def AnnoSpiderSubnets : String := "ipam.spidernet.io/subnets"

/-- Pod annotation key fixing the auto-pool IP count. -/
def AnnoSpiderSubnetPoolIPNumber : String := "ipam.spidernet.io/ippool-ip-number"

/-- Pod annotation key controlling auto-pool reclamation. -/
def AnnoSpiderSubnetReclaimIPPool : String := "ipam.spidernet.io/ippool-reclaim"

/-- Cluster default interface name (`constant.ClusterDefaultInterfaceName`). -/
def ClusterDefaultInterfaceName : String := "eth0"

/-- `SubnetPoolName` (source lines 164-172): lower-case the workload
coordinates, keep the last `-`-separated segment of the UID, and join as
`auto-kind-ns-name-vN-if-uidTail`. -/
def SubnetPoolName (controllerKind controllerNS controllerName : String)
    (ipVersion : Int) (ifName : String) (controllerUID : String) : String :=
  let splits := splitOnChar '-' controllerUID.data
  let lastOne : String := ⟨splits.getLastD []⟩
  "auto-" ++ goToLower controllerKind ++ "-" ++ goToLower controllerNS ++ "-" ++
    goToLower controllerName ++ "-v" ++ toString ipVersion ++ "-" ++ ifName ++ "-" ++
    goToLower lastOne

/-- `GetPoolIPNumber` (source lines 368-389): at most one `+`; the text
after the `+` (or the whole input when there is none) must pass
`strconv.Atoi`; a `+` marks the count flexible. -/
def GetPoolIPNumber (str : String) : Except String (Bool × Int) :=
  if str.data.count '+' = 0 ∨ str.data.count '+' = 1 then
    match cutList '+' str.data with
    | some (_, after) =>
      match goAtoi after with
      | none => .error ("invalid input '" ++ str ++ "': strconv.Atoi failure")
      | some ipNum => .ok (true, ipNum)
    | none =>
      match goAtoi str.data with
      | none => .error ("invalid input '" ++ str ++ "': strconv.Atoi failure")
      | some ipNum => .ok (false, ipNum)
  else .error ("invalid input '" ++ str ++ "'")

/-- `CalculateJobPodNum` (source lines 391-425).  The `*int32` fields are
modelled as `Option Int`; only a value equal to zero is replaced by 1,
negative values flow through unchanged (the API server refuses them). -/
def CalculateJobPodNum (jobSpecParallelism jobSpecCompletions : Option Int) : Int :=
  match jobSpecParallelism, jobSpecCompletions with
  | some parallelism, none => if parallelism = 0 then 1 else parallelism
  | none, some completions => if completions = 0 then 1 else completions
  | some _, some completions => if completions = 0 then 1 else completions
  | none, none => 1

/-- `types.AnnoSubnetItem`: one interface with its candidate subnets. -/
structure AnnoSubnetItem where
  Interface : String
  IPv4 : List String
  IPv6 : List String
deriving DecidableEq

/-- `types.PodSubnetAnnoConfig`: the normalized subnet selection derived
from pod annotations. -/
structure PodSubnetAnnoConfig where
  MultipleSubnets : List AnnoSubnetItem
  SingleSubnet : Option AnnoSubnetItem
  AssignIPNum : Int
  FlexibleIPNum : Option Int
  ReclaimIPPool : Bool
deriving DecidableEq

/-- The zero value of `PodSubnetAnnoConfig` (Go `var` declaration). -/
def emptyPodSubnetAnnoConfig : PodSubnetAnnoConfig :=
  { MultipleSubnets := [], SingleSubnet := none, AssignIPNum := 0,
    FlexibleIPNum := none, ReclaimIPPool := false }

/-- `IsDefaultIPPoolMode` (source lines 428-444): nil means default mode;
both populated shapes answer `false`, and so does the trailing branch. -/
def IsDefaultIPPoolMode (subnetConfig : Option PodSubnetAnnoConfig) : Bool :=
  match subnetConfig with
  | none => true
  | some cfg =>
    if cfg.MultipleSubnets ≠ [] then false
    else if cfg.SingleSubnet.isSome then false
    else false

/-- Truncate an IPv4/IPv6 candidate list to its first element, rejecting
an empty-string head (the per-entry normalization inside
`mutateAndValidateSubnetAnno`). -/
def truncateIPList (l : List String) (emptyMsg : String) : Except String (List String) :=
  match l with
  | [] => .ok []
  | v :: _ => if v = "" then .error emptyMsg else .ok [v]

/-- One iteration of the `MultipleSubnets` loop of
`mutateAndValidateSubnetAnno` (source lines 306-328): truncate both lists
to their first element, reject empty-string heads, reject an entry with
neither family populated. -/
def mutateSubnetItem (it : AnnoSubnetItem) : Except String AnnoSubnetItem :=
  match truncateIPList it.IPv4 "it's invalid to set an empty IPv4 subnet with mutilple interfaces" with
  | .error e => .error e
  | .ok v4 =>
    match truncateIPList it.IPv6 "it's invalid to set an empty IPv6 subnet with mutilple interfaces" with
    | .error e => .error e
    | .ok v6 =>
      if v4 = [] ∧ v6 = [] then
        .error "it's invalid to set dual empty subnet with multiple interfaces"
      else .ok { it with IPv4 := v4, IPv6 := v6 }

/-- The `MultipleSubnets` loop itself: first error wins, otherwise the
normalized entries in order. -/
def mutateItems : List AnnoSubnetItem → Except String (List AnnoSubnetItem)
  | [] => .ok []
  | it :: rest =>
    match mutateSubnetItem it with
    | .error e => .error e
    | .ok it2 =>
      match mutateItems rest with
      | .error e => .error e
      | .ok rest2 => .ok (it2 :: rest2)

/-- `mutateAndValidateSubnetAnno` (source lines 300-366).  After the loop
the source holds the collected first IPv4 values, first IPv6 values and
interface names of the normalized entries; collecting them by
`filterMap`/`map` over the normalized list yields the same slices the
loop appends to. -/
def mutateAndValidateSubnetAnno (subnetConfig : PodSubnetAnnoConfig) :
    Except String PodSubnetAnnoConfig :=
  if subnetConfig.MultipleSubnets ≠ [] then
    match mutateItems subnetConfig.MultipleSubnets with
    | .error e => .error e
    | .ok items =>
      if containsDuplicate (items.filterMap (fun it => it.IPv4.head?))
          || containsDuplicate (items.filterMap (fun it => it.IPv6.head?)) then
        .error "it's invalid to use the same subnet for multiple interfaces"
      else if containsDuplicate (items.map (fun it => it.Interface)) then
        .error "it's invalid to use the same Interface name for multiple interfaces"
      else .ok { subnetConfig with MultipleSubnets := items }
  else
    match subnetConfig.SingleSubnet with
    | some s =>
      match truncateIPList s.IPv4 "it's invalid to set an empty IPv4 subnet with single interface" with
      | .error e => .error e
      | .ok v4 =>
        match truncateIPList s.IPv6 "it's invalid to set an empty IPv6 subnet with single interface" with
        | .error e => .error e
        | .ok v6 =>
          if v4 = [] ∧ v6 = [] then
            .error "it's invalid to set dual empty subnet with single interface"
          else
            let ifName := if s.Interface = "" then ClusterDefaultInterfaceName else s.Interface
            .ok { subnetConfig with
                  SingleSubnet := some { s with Interface := ifName, IPv4 := v4, IPv6 := v6 } }
    | none => .error "no subnets specified"

/-- `ShouldReclaimIPPool` (source lines 458-470): parse the reclaim
annotation as a Go bool, defaulting to `true` when absent. -/
def ShouldReclaimIPPool (podAnnotations : List (String × String)) : Except String Bool :=
  match podAnnotations.lookup AnnoSpiderSubnetReclaimIPPool with
  | some reclaimPool =>
    match goParseBool reclaimPool with
    | some parsed => .ok parsed
    | none =>
      .error ("failed to parse spider subnet '" ++ AnnoSpiderSubnetReclaimIPPool ++ "'")
  | none => .ok true

/-- The IP-count stage of `GetSubnetAnnoConfig` (source lines 253-281):
an explicit pool-size annotation is parsed by `GetPoolIPNumber` and a
negative count rejected; without the annotation the cluster default
flexible number applies. -/
def resolvePoolIPNum (podAnnotations : List (String × String))
    (clusterDefaultFlexibleIPNumber : Int) (cfg0 : PodSubnetAnnoConfig) :
    Except String PodSubnetAnnoConfig :=
  match podAnnotations.lookup AnnoSpiderSubnetPoolIPNumber with
  | some poolIPNum =>
    match GetPoolIPNumber poolIPNum with
    | .error e => .error e
    | .ok (isFlexible, ipNum) =>
      if ipNum < 0 then
        .error ("subnet '" ++ AnnoSpiderSubnetPoolIPNumber ++ "' value must equal or greater than 0")
      else if isFlexible then .ok { cfg0 with FlexibleIPNum := some ipNum }
      else .ok { cfg0 with AssignIPNum := ipNum }
  | none => .ok { cfg0 with FlexibleIPNum := some clusterDefaultFlexibleIPNumber }

/-- The tail of `GetSubnetAnnoConfig` after annotation decoding (source
lines 253-295): resolve the IP count, resolve the reclaim flag, then
normalize and validate. -/
def subnetAnnoPostProcess (podAnnotations : List (String × String))
    (clusterDefaultFlexibleIPNumber : Int) (cfg0 : PodSubnetAnnoConfig) :
    Except String (Option PodSubnetAnnoConfig) :=
  match resolvePoolIPNum podAnnotations clusterDefaultFlexibleIPNumber cfg0 with
  | .error e => .error e
  | .ok cfg1 =>
    match ShouldReclaimIPPool podAnnotations with
    | .error e => .error e
    | .ok reclaimPool =>
      match mutateAndValidateSubnetAnno { cfg1 with ReclaimIPPool := reclaimPool } with
      | .error e => .error e
      | .ok cfg2 => .ok (some cfg2)

/-- `GetSubnetAnnoConfig` (source lines 226-296).  `encoding/json`
unmarshalling of the two subnet annotations is an external collaborator
and is passed in as the two parsing functions; the pod annotation map is
an association list. -/
def GetSubnetAnnoConfig
    (parseSubnetsJSON : String → Except String (List AnnoSubnetItem))
    (parseSubnetJSON : String → Except String AnnoSubnetItem)
    (clusterDefaultFlexibleIPNumber : Int)
    (podAnnotations : List (String × String)) :
    Except String (Option PodSubnetAnnoConfig) :=
  match podAnnotations.lookup AnnoSpiderSubnets with
  | some subnets =>
    match parseSubnetsJSON subnets with
    | .error e =>
      .error ("failed to parse anntation '" ++ AnnoSpiderSubnets ++ "' value '" ++
        subnets ++ "', error: " ++ e)
    | .ok ms =>
      subnetAnnoPostProcess podAnnotations clusterDefaultFlexibleIPNumber
        { emptyPodSubnetAnnoConfig with MultipleSubnets := ms }
  | none =>
    match podAnnotations.lookup AnnoSpiderSubnet with
    | some subnet =>
      match parseSubnetJSON subnet with
      | .error e =>
        .error ("failed to parse anntation '" ++ AnnoSpiderSubnet ++ "' value '" ++
          subnet ++ "', error: " ++ e)
      | .ok s =>
        subnetAnnoPostProcess podAnnotations clusterDefaultFlexibleIPNumber
          { emptyPodSubnetAnnoConfig with SingleSubnet := some s }
    | none => .ok none

/-! ### The `podmanager` package (src, `GetPodTopController`) -/

/-- Workload kind names from the repository's `constant` package. -/
def KindPod : String := "Pod"

/-- `constant.KindDeployment`. -/
def KindDeployment : String := "Deployment"

/-- `constant.KindReplicaSet`. -/
def KindReplicaSet : String := "ReplicaSet"

/-- `constant.KindDaemonSet`. -/
def KindDaemonSet : String := "DaemonSet"

/-- `constant.KindStatefulSet`. -/
def KindStatefulSet : String := "StatefulSet"

/-- `constant.KindJob`. -/
def KindJob : String := "Job"

/-- `constant.KindCronJob`. -/
def KindCronJob : String := "CronJob"

/-- `constant.KindUnknown`. -/
def KindUnknown : String := "Unknown"

/-- `appsv1.SchemeGroupVersion.String()`. -/
def appsAPIVersion : String := "apps/v1"

/-- `batchv1.SchemeGroupVersion.String()`. -/
def batchAPIVersion : String := "batch/v1"

/-- `metav1.OwnerReference`, with the `Controller *bool` flag flattened
to the boolean `GetControllerOf` tests. -/
structure OwnerReference where
  apiVersion : String
  kind : String
  name : String
  uid : String
  isController : Bool
deriving DecidableEq

/-- The object metadata shared by the workload objects the resolver
touches (pods, ReplicaSets, Deployments, Jobs, CronJobs, DaemonSets,
StatefulSets): namespace, name, UID and owner references. -/
structure K8sObject where
  ns : String
  name : String
  uid : String
  ownerReferences : List OwnerReference
deriving DecidableEq

/-- `metav1.GetControllerOf`: the first owner reference flagged as the
managing controller. -/
def getControllerOf (obj : K8sObject) : Option OwnerReference :=
  obj.ownerReferences.find? (fun r => r.isController)

/-- `types.PodTopController`: the resolved top owner of a pod.  `APP`
holds the fetched object (`nil` for third-party controllers). -/
structure PodTopController where
  Kind : String
  Namespace : String
  Name : String
  UID : String
  APP : Option K8sObject
deriving DecidableEq

/-- The read side of the Kubernetes client used by `GetPodTopController`:
one fetch function per workload kind, from `(namespace, name)` to the
object or an error message (covering both not-found and API errors). -/
structure K8sClient where
  getReplicaSet : String → String → Except String K8sObject
  getDeployment : String → String → Except String K8sObject
  getJob : String → String → Except String K8sObject
  getCronJob : String → String → Except String K8sObject
  getDaemonSet : String → String → Except String K8sObject
  getStatefulSet : String → String → Except String K8sObject

/-- `GetPodTopController` (src/pkg, package `podmanager`, lines 210-357):
walk the controller-owner chain of `pod` to the top workload.  The Go
`switch` over the owner kind becomes an if-chain in source order. -/
def GetPodTopController (c : K8sClient) (pod : K8sObject) : Except String PodTopController :=
  let ownerErr := "failed to get pod '" ++ pod.ns ++ "/" ++ pod.name ++ "' owner"
  match getControllerOf pod with
  | none => .ok ⟨KindPod, pod.ns, pod.name, pod.uid, some pod⟩
  | some podOwner =>
    if podOwner.apiVersion ≠ appsAPIVersion ∧ podOwner.apiVersion ≠ batchAPIVersion then
      .ok ⟨KindUnknown, pod.ns, podOwner.name, podOwner.uid, none⟩
    else if podOwner.kind = KindReplicaSet then
      match c.getReplicaSet pod.ns podOwner.name with
      | .error e => .error (ownerErr ++ ": " ++ e)
      | .ok replicaset =>
        match getControllerOf replicaset with
        | some replicasetOwner =>
          if replicasetOwner.kind = KindDeployment then
            match c.getDeployment replicaset.ns replicasetOwner.name with
            | .error e => .error (ownerErr ++ ": " ++ e)
            | .ok deployment =>
              .ok ⟨KindDeployment, deployment.ns, deployment.name, deployment.uid,
                some deployment⟩
          else .ok ⟨KindUnknown, pod.ns, replicasetOwner.name, replicasetOwner.uid, none⟩
        | none =>
          .ok ⟨KindReplicaSet, replicaset.ns, replicaset.name, replicaset.uid,
            some replicaset⟩
    else if podOwner.kind = KindJob then
      match c.getJob pod.ns podOwner.name with
      | .error e => .error (ownerErr ++ ": " ++ e)
      | .ok job =>
        match getControllerOf job with
        | some jobOwner =>
          if jobOwner.kind = KindCronJob then
            match c.getCronJob job.ns jobOwner.name with
            | .error e => .error (ownerErr ++ ": " ++ e)
            | .ok cronJob =>
              .ok ⟨KindCronJob, cronJob.ns, cronJob.name, cronJob.uid, some cronJob⟩
          else .ok ⟨KindUnknown, job.ns, jobOwner.name, jobOwner.uid, none⟩
        | none => .ok ⟨KindJob, job.ns, job.name, job.uid, some job⟩
    else if podOwner.kind = KindDaemonSet then
      match c.getDaemonSet pod.ns podOwner.name with
      | .error e => .error (ownerErr ++ ": " ++ e)
      | .ok daemonSet =>
        .ok ⟨KindDaemonSet, daemonSet.ns, daemonSet.name, daemonSet.uid, some daemonSet⟩
    else if podOwner.kind = KindStatefulSet then
      match c.getStatefulSet pod.ns podOwner.name with
      | .error e => .error (ownerErr ++ ": " ++ e)
      | .ok statefulSet =>
        .ok ⟨KindStatefulSet, statefulSet.ns, statefulSet.name, statefulSet.uid,
          some statefulSet⟩
    else .ok ⟨KindUnknown, pod.ns, podOwner.name, podOwner.uid, none⟩

/-! ### The subnet admission webhook (src/pkg/subnetmanager/subnet_webhook.go) -/

/-- `constant.SpiderFinalizer` (the spiderpool finalizer name). -/
def SpiderFinalizer : String := "spiderpool.spidernet.io"

/-- `constant.SpiderSubnetKind`. -/
def SpiderSubnetKind : String := "SpiderSubnet"

/-- The slice of a `SpiderSubnet` object that `ValidateUpdate` inspects:
metadata (name, deletion timestamp, finalizers) plus the spec, kept
opaque as a string since this hook never looks inside it. -/
structure SpiderSubnet where
  name : String
  deletionTimestamp : Option String
  finalizers : List String
  spec : String
deriving DecidableEq

/-- `controllerutil.ContainsFinalizer`. -/
def containsFinalizer (subnet : SpiderSubnet) (finalizer : String) : Bool :=
  subnet.finalizers.contains finalizer

/-- A denied admission request: `apierrors.NewForbidden` or
`apierrors.NewInvalid` with the aggregated field errors.  An allowed
request is `none`. -/
inductive WebhookDenial where
  | forbidden (msg : String)
  | invalid (kind : String) (name : String) (errs : List String)
deriving DecidableEq

/-- `(*SubnetWebhook).ValidateUpdate` (source lines 89-122).  The body of
`validateUpdateSubnet` is outside the sample, so the structural validator
is a parameter returning the aggregated field-error list (empty means
valid). -/
def ValidateUpdate (validateUpdateSubnet : SpiderSubnet → SpiderSubnet → List String)
    (oldSubnet newSubnet : SpiderSubnet) : Option WebhookDenial :=
  if newSubnet.deletionTimestamp.isSome then
    if ¬ containsFinalizer newSubnet SpiderFinalizer then none
    else some (.forbidden "cannot update a terminaing Subnet")
  else
    match validateUpdateSubnet oldSubnet newSubnet with
    | [] => none
    | e :: errs => some (.invalid SpiderSubnetKind newSubnet.name (e :: errs))

/-! ### C1 — `GetPoolIPNumber` test vectors -/

/-- C1 counterexample: the claim's vector `GetPoolIPNumber("3+") =
(true, 3, nil)` is false — `strings.Cut` leaves the empty string after
the `+`, which `strconv.Atoi` rejects, so the call errors. -/
theorem GetPoolIPNumber_three_plus_cex : GetPoolIPNumber "3+" ≠ .ok (true, 3) := by
  decide

/-- C1 (amended): `"5"` parses as a fixed count of 5; `"3+"` is an error
(the text after the `+` is empty — the flexible marker precedes the
number, so `"+3"` yields `(true, 3)`); `"1+2+"` and `"abc"` error. -/
theorem GetPoolIPNumber_vectors :
    GetPoolIPNumber "5" = .ok (false, 5)
    ∧ (GetPoolIPNumber "3+").isOk = false
    ∧ GetPoolIPNumber "+3" = .ok (true, 3)
    ∧ (GetPoolIPNumber "1+2+").isOk = false
    ∧ (GetPoolIPNumber "abc").isOk = false := by
  decide

/-! ### C2 — `CalculateJobPodNum` -/

/-- C2 counterexample: with parallelism `-3` and no completions the
function returns `-3`, not `max 1 (-3) = 1` — only a value equal to zero
is replaced by 1; negatives flow through. -/
theorem CalculateJobPodNum_negative_cex :
    CalculateJobPodNum (some (-3)) none ≠ max 1 (-3) := by
  decide

/-- C2 (amended): both nil gives 1; with only parallelism the result is
parallelism with 0 mapped to 1 (hence `max 1 p` for non-negative `p`, but
a negative parallelism is returned unchanged); with completions set
(alone or together with parallelism) the result is completions with 0
mapped to 1; and the claim's four concrete vectors hold. -/
theorem CalculateJobPodNum_characterization :
    CalculateJobPodNum none none = 1
    ∧ CalculateJobPodNum (some 0) none = 1
    ∧ CalculateJobPodNum (some 3) none = 3
    ∧ CalculateJobPodNum (some 2) (some 5) = 5
    ∧ (∀ p : Int, CalculateJobPodNum (some p) none = if p = 0 then 1 else p)
    ∧ (∀ c : Int, CalculateJobPodNum none (some c) = if c = 0 then 1 else c)
    ∧ (∀ p c : Int, CalculateJobPodNum (some p) (some c) = if c = 0 then 1 else c)
    ∧ (∀ p : Int, 0 ≤ p → CalculateJobPodNum (some p) none = max 1 p)
    ∧ (∀ c : Int, 0 ≤ c → CalculateJobPodNum none (some c) = max 1 c)
    ∧ (∀ p c : Int, 0 ≤ c → CalculateJobPodNum (some p) (some c) = max 1 c) := by
  refine ⟨rfl, rfl, rfl, rfl, fun p => rfl, fun c => rfl, fun p c => rfl, ?_, ?_, ?_⟩
  · intro p hp
    simp only [CalculateJobPodNum]
    split
    · omega
    · omega
  · intro c hc
    simp only [CalculateJobPodNum]
    split
    · omega
    · omega
  · intro p c hc
    simp only [CalculateJobPodNum]
    split
    · omega
    · omega

/-- C2 witness: the `max` form of the amended statement evaluated at the
concrete non-negative parallelism 7. -/
theorem CalculateJobPodNum_characterization_witness :
    CalculateJobPodNum (some 7) none = max 1 7 :=
  CalculateJobPodNum_characterization.2.2.2.2.2.2.2.1 7 (by decide)

/-! ### C3 — `SubnetPoolName` determinism and uid separation -/

/-- C3 counterexample: two distinct UIDs with the same final
`-`-separated segment produce the same pool name, so the name is not
collision-free across differing UIDs. -/
theorem SubnetPoolName_uid_collision_cex :
    SubnetPoolName "Deployment" "ns1" "app" 4 "eth0" "aaa-tail"
      = SubnetPoolName "Deployment" "ns1" "app" 4 "eth0" "bbb-tail"
    ∧ ("aaa-tail" : String) ≠ "bbb-tail" := by
  constructor
  · decide
  · decide

/-- C3 (amended): the name is deterministic in its six inputs, and two
calls agreeing on the first five inputs give different names whenever the
lower-cased final `-`-segments of the two UIDs differ (only that segment
of the UID enters the name). -/
theorem SubnetPoolName_deterministic_uidTail :
    (∀ (k ns n : String) (v : Int) (i u : String),
      SubnetPoolName k ns n v i u = SubnetPoolName k ns n v i u)
    ∧ (∀ (k ns n : String) (v : Int) (i u1 u2 : String),
        goToLower ⟨(splitOnChar '-' u1.data).getLastD []⟩ ≠
          goToLower ⟨(splitOnChar '-' u2.data).getLastD []⟩ →
        SubnetPoolName k ns n v i u1 ≠ SubnetPoolName k ns n v i u2) := by
  refine ⟨fun _ _ _ _ _ _ => rfl, ?_⟩
  intro k ns n v i u1 u2 hne heq
  apply hne
  apply String.ext
  have hd := congrArg String.data heq
  simp only [SubnetPoolName, String.data_append, List.append_assoc] at hd
  iterate 11 replace hd := List.append_cancel_left hd
  exact hd

/-- C3 witness: with equal workload coordinates and UIDs whose final
segments differ, the names differ. -/
theorem SubnetPoolName_deterministic_uidTail_witness :
    SubnetPoolName "Deployment" "ns1" "app" 4 "eth0" "uid-1"
      ≠ SubnetPoolName "Deployment" "ns1" "app" 4 "eth0" "uid-2" :=
  SubnetPoolName_deterministic_uidTail.2 "Deployment" "ns1" "app" 4 "eth0"
    "uid-1" "uid-2" (by decide)

/-! ### C7 — `IsDefaultIPPoolMode` -/

/-- C7: `IsDefaultIPPoolMode` answers `true` exactly on `nil` — the
populated shapes answer `false` and so does the final fallthrough branch
for a non-nil config with neither field populated. -/
theorem IsDefaultIPPoolMode_iff_nil (subnetConfig : Option PodSubnetAnnoConfig) :
    IsDefaultIPPoolMode subnetConfig = true ↔ subnetConfig = none := by
  cases subnetConfig with
  | none => simp [IsDefaultIPPoolMode]
  | some cfg =>
    simp only [IsDefaultIPPoolMode]
    constructor
    · intro h
      split at h
      · exact absurd h (by simp)
      · split at h
        · exact absurd h (by simp)
        · exact absurd h (by simp)
    · intro h
      exact absurd h (by simp)

/-! ### C5 — subnet webhook `ValidateUpdate` under deletion -/

/-- C5 counterexample: deletion timestamp set, finalizer already removed,
and the spec changed between old and new — the update is nevertheless
allowed (the hook checks only the finalizer once deletion is pending), so
"any other field change while deletion is pending is forbidden" fails. -/
theorem ValidateUpdate_spec_change_allowed_cex :
    ValidateUpdate (fun _ _ => ["spec changed"])
        ⟨"sub1", some "2022-01-01", [SpiderFinalizer], "specA"⟩
        ⟨"sub1", some "2022-01-01", [], "specB"⟩ = none
    ∧ ("specA" : String) ≠ "specB" := by
  constructor
  · decide
  · decide

/-- C5 (amended): while a deletion timestamp is set on the new object the
request is allowed exactly when the new object no longer carries the
spiderpool finalizer — regardless of any other field change; without a
deletion timestamp the request is allowed exactly when the structural
validator reports no field errors. -/
theorem ValidateUpdate_terminating_rule :
    (∀ (validate : SpiderSubnet → SpiderSubnet → List String) (oldSubnet newSubnet : SpiderSubnet),
      newSubnet.deletionTimestamp.isSome = true →
      (ValidateUpdate validate oldSubnet newSubnet = none ↔
        containsFinalizer newSubnet SpiderFinalizer = false))
    ∧ (∀ (validate : SpiderSubnet → SpiderSubnet → List String) (oldSubnet newSubnet : SpiderSubnet),
        newSubnet.deletionTimestamp = none →
        (ValidateUpdate validate oldSubnet newSubnet = none ↔
          validate oldSubnet newSubnet = [])) := by
  constructor
  · intro validate oldSubnet newSubnet hdel
    simp only [ValidateUpdate, if_pos hdel]
    by_cases hfin : containsFinalizer newSubnet SpiderFinalizer
    · simp [hfin]
    · simp [hfin]
  · intro validate oldSubnet newSubnet hdel
    have : newSubnet.deletionTimestamp.isSome = false := by
      rw [hdel]; rfl
    simp only [ValidateUpdate, this, Bool.false_eq_true, if_false]
    cases hv : validate oldSubnet newSubnet with
    | nil => simp
    | cons e errs => simp

/-- C5 witness: both branches of the amended rule at concrete subnets — a
terminating subnet without the finalizer is allowed, and a live subnet
with a clean validation passes. -/
theorem ValidateUpdate_terminating_rule_witness :
    (ValidateUpdate (fun _ _ => ["err"])
        ⟨"sub1", some "2022-01-01", [SpiderFinalizer], "a"⟩
        ⟨"sub1", some "2022-01-01", [], "b"⟩ = none
      ↔ containsFinalizer ⟨"sub1", some "2022-01-01", [], "b"⟩ SpiderFinalizer = false)
    ∧ (ValidateUpdate (fun _ _ => []) ⟨"sub1", none, [], "a"⟩ ⟨"sub1", none, [], "a"⟩ = none
      ↔ (fun (_ _ : SpiderSubnet) => ([] : List String))
          ⟨"sub1", none, [], "a"⟩ ⟨"sub1", none, [], "a"⟩ = []) :=
  ⟨ValidateUpdate_terminating_rule.1 (fun _ _ => ["err"])
      ⟨"sub1", some "2022-01-01", [SpiderFinalizer], "a"⟩
      ⟨"sub1", some "2022-01-01", [], "b"⟩ (by decide),
    ValidateUpdate_terminating_rule.2 (fun _ _ => [])
      ⟨"sub1", none, [], "a"⟩ ⟨"sub1", none, [], "a"⟩ rfl⟩

/-! ### C4 — `GetPodTopController` resolution paths -/

/-- C4: the four resolution paths of the claim — no controller owner
gives `Kind=Pod` with the pod as APP; an owner outside the apps/batch API
groups gives `Kind=Unknown` with the immediate owner's identity for every
client (hence without any fetch); a ReplicaSet owner controlled by a
Deployment resolves to the fetched Deployment; a DaemonSet owner resolves
to the fetched DaemonSet. -/
theorem GetPodTopController_resolution :
    (∀ (c : K8sClient) (pod : K8sObject), getControllerOf pod = none →
      GetPodTopController c pod = .ok ⟨KindPod, pod.ns, pod.name, pod.uid, some pod⟩)
    ∧ (∀ (c : K8sClient) (pod : K8sObject) (o : OwnerReference),
        getControllerOf pod = some o →
        o.apiVersion ≠ appsAPIVersion → o.apiVersion ≠ batchAPIVersion →
        GetPodTopController c pod = .ok ⟨KindUnknown, pod.ns, o.name, o.uid, none⟩)
    ∧ (∀ (c : K8sClient) (pod : K8sObject) (o : OwnerReference) (rs : K8sObject)
        (o2 : OwnerReference) (dep : K8sObject),
        getControllerOf pod = some o →
        o.apiVersion = appsAPIVersion → o.kind = KindReplicaSet →
        c.getReplicaSet pod.ns o.name = .ok rs →
        getControllerOf rs = some o2 → o2.kind = KindDeployment →
        c.getDeployment rs.ns o2.name = .ok dep →
        GetPodTopController c pod = .ok ⟨KindDeployment, dep.ns, dep.name, dep.uid, some dep⟩)
    ∧ (∀ (c : K8sClient) (pod : K8sObject) (o : OwnerReference) (ds : K8sObject),
        getControllerOf pod = some o →
        o.apiVersion = appsAPIVersion → o.kind = KindDaemonSet →
        c.getDaemonSet pod.ns o.name = .ok ds →
        GetPodTopController c pod = .ok ⟨KindDaemonSet, ds.ns, ds.name, ds.uid, some ds⟩) := by
  refine ⟨?_, ?_, ?_, ?_⟩
  · intro c pod hown
    simp [GetPodTopController, hown]
  · intro c pod o hown h1 h2
    simp only [GetPodTopController, hown]
    rw [if_pos ⟨h1, h2⟩]
  · intro c pod o rs o2 dep hown happ hkind hrs ho2 hdep hget
    simp only [GetPodTopController, hown]
    rw [if_neg (fun hc => hc.1 happ), if_pos hkind, hrs]
    simp only [ho2]
    rw [if_pos hdep, hget]
  · intro c pod o ds hown happ hkind hds
    simp only [GetPodTopController, hown]
    rw [if_neg (fun hc => hc.1 happ)]
    rw [if_neg (fun hc => by rw [hkind] at hc; exact absurd hc (by decide))]
    rw [if_neg (fun hc => by rw [hkind] at hc; exact absurd hc (by decide))]
    rw [if_pos hkind, hds]

/-- A Deployment object used by the concrete resolution runs. -/
def depW : K8sObject := ⟨"default", "dep1", "uid-dep", []⟩

/-- A ReplicaSet controlled by `depW`. -/
def rsW : K8sObject :=
  ⟨"default", "rs1", "uid-rs", [⟨"apps/v1", "Deployment", "dep1", "uid-dep", true⟩]⟩

/-- A DaemonSet object. -/
def dsW : K8sObject := ⟨"default", "ds1", "uid-ds", []⟩

/-- A pod controlled by `rsW`. -/
def podRSW : K8sObject :=
  ⟨"default", "pod-rs", "uid-pod1", [⟨"apps/v1", "ReplicaSet", "rs1", "uid-rs", true⟩]⟩

/-- A pod controlled by `dsW`. -/
def podDSW : K8sObject :=
  ⟨"default", "pod-ds", "uid-pod2", [⟨"apps/v1", "DaemonSet", "ds1", "uid-ds", true⟩]⟩

/-- A pod with no controller owner reference. -/
def podAloneW : K8sObject := ⟨"default", "pod-alone", "uid-pod3", []⟩

/-- A pod controlled by a third-party (non apps/batch) object. -/
def podThirdW : K8sObject :=
  ⟨"default", "pod-3rd", "uid-pod4", [⟨"example.com/v1", "FooKind", "foo1", "uid-foo", true⟩]⟩

/-- A concrete client serving `rsW`, `depW` and `dsW`, failing all other
lookups. -/
def clientW : K8sClient where
  getReplicaSet := fun n1 n2 =>
    if n1 = "default" ∧ n2 = "rs1" then .ok rsW else .error "replicasets not found"
  getDeployment := fun n1 n2 =>
    if n1 = "default" ∧ n2 = "dep1" then .ok depW else .error "deployments not found"
  getJob := fun _ _ => .error "jobs not found"
  getCronJob := fun _ _ => .error "cronjobs not found"
  getDaemonSet := fun n1 n2 =>
    if n1 = "default" ∧ n2 = "ds1" then .ok dsW else .error "daemonsets not found"
  getStatefulSet := fun _ _ => .error "statefulsets not found"

/-- C4 witness: the four paths of `GetPodTopController_resolution` run on
concrete pods against `clientW`. -/
theorem GetPodTopController_resolution_witness :
    GetPodTopController clientW podAloneW
      = .ok ⟨KindPod, "default", "pod-alone", "uid-pod3", some podAloneW⟩
    ∧ GetPodTopController clientW podThirdW
      = .ok ⟨KindUnknown, "default", "foo1", "uid-foo", none⟩
    ∧ GetPodTopController clientW podRSW
      = .ok ⟨KindDeployment, "default", "dep1", "uid-dep", some depW⟩
    ∧ GetPodTopController clientW podDSW
      = .ok ⟨KindDaemonSet, "default", "ds1", "uid-ds", some dsW⟩ :=
  ⟨GetPodTopController_resolution.1 clientW podAloneW rfl,
    GetPodTopController_resolution.2.1 clientW podThirdW _ rfl (by decide) (by decide),
    GetPodTopController_resolution.2.2.1 clientW podRSW _ rsW _ depW rfl rfl rfl
      (by decide) rfl rfl (by decide),
    GetPodTopController_resolution.2.2.2 clientW podDSW _ dsW rfl rfl rfl (by decide)⟩

/-! ### C8 — fetch failures are wrapped errors, unknown kinds are not -/

/-- C8: every failing owner fetch — the immediate ReplicaSet / Job /
DaemonSet / StatefulSet lookup, or the second-hop Deployment / CronJob
lookup — surfaces as an error wrapping the pod identity, never as a
`Kind=Unknown` result; while an intermediate owner of an unrecognized
kind (a ReplicaSet or Job controlled by something other than a
Deployment / CronJob) yields `Kind=Unknown` with a nil error. -/
theorem GetPodTopController_error_propagation :
    (∀ (c : K8sClient) (pod : K8sObject) (o : OwnerReference) (e : String),
      getControllerOf pod = some o →
      (o.apiVersion = appsAPIVersion ∨ o.apiVersion = batchAPIVersion) →
      o.kind = KindReplicaSet → c.getReplicaSet pod.ns o.name = .error e →
      GetPodTopController c pod =
        .error (("failed to get pod '" ++ pod.ns ++ "/" ++ pod.name ++ "' owner") ++ ": " ++ e))
    ∧ (∀ (c : K8sClient) (pod : K8sObject) (o : OwnerReference) (e : String),
        getControllerOf pod = some o →
        (o.apiVersion = appsAPIVersion ∨ o.apiVersion = batchAPIVersion) →
        o.kind = KindJob → c.getJob pod.ns o.name = .error e →
        GetPodTopController c pod =
          .error (("failed to get pod '" ++ pod.ns ++ "/" ++ pod.name ++ "' owner") ++ ": " ++ e))
    ∧ (∀ (c : K8sClient) (pod : K8sObject) (o : OwnerReference) (e : String),
        getControllerOf pod = some o →
        (o.apiVersion = appsAPIVersion ∨ o.apiVersion = batchAPIVersion) →
        o.kind = KindDaemonSet → c.getDaemonSet pod.ns o.name = .error e →
        GetPodTopController c pod =
          .error (("failed to get pod '" ++ pod.ns ++ "/" ++ pod.name ++ "' owner") ++ ": " ++ e))
    ∧ (∀ (c : K8sClient) (pod : K8sObject) (o : OwnerReference) (e : String),
        getControllerOf pod = some o →
        (o.apiVersion = appsAPIVersion ∨ o.apiVersion = batchAPIVersion) →
        o.kind = KindStatefulSet → c.getStatefulSet pod.ns o.name = .error e →
        GetPodTopController c pod =
          .error (("failed to get pod '" ++ pod.ns ++ "/" ++ pod.name ++ "' owner") ++ ": " ++ e))
    ∧ (∀ (c : K8sClient) (pod : K8sObject) (o : OwnerReference) (rs : K8sObject)
        (o2 : OwnerReference) (e : String),
        getControllerOf pod = some o →
        (o.apiVersion = appsAPIVersion ∨ o.apiVersion = batchAPIVersion) →
        o.kind = KindReplicaSet → c.getReplicaSet pod.ns o.name = .ok rs →
        getControllerOf rs = some o2 → o2.kind = KindDeployment →
        c.getDeployment rs.ns o2.name = .error e →
        GetPodTopController c pod =
          .error (("failed to get pod '" ++ pod.ns ++ "/" ++ pod.name ++ "' owner") ++ ": " ++ e))
    ∧ (∀ (c : K8sClient) (pod : K8sObject) (o : OwnerReference) (job : K8sObject)
        (o2 : OwnerReference) (e : String),
        getControllerOf pod = some o →
        (o.apiVersion = appsAPIVersion ∨ o.apiVersion = batchAPIVersion) →
        o.kind = KindJob → c.getJob pod.ns o.name = .ok job →
        getControllerOf job = some o2 → o2.kind = KindCronJob →
        c.getCronJob job.ns o2.name = .error e →
        GetPodTopController c pod =
          .error (("failed to get pod '" ++ pod.ns ++ "/" ++ pod.name ++ "' owner") ++ ": " ++ e))
    ∧ (∀ (c : K8sClient) (pod : K8sObject) (o : OwnerReference) (rs : K8sObject)
        (o2 : OwnerReference),
        getControllerOf pod = some o →
        (o.apiVersion = appsAPIVersion ∨ o.apiVersion = batchAPIVersion) →
        o.kind = KindReplicaSet → c.getReplicaSet pod.ns o.name = .ok rs →
        getControllerOf rs = some o2 → o2.kind ≠ KindDeployment →
        GetPodTopController c pod = .ok ⟨KindUnknown, pod.ns, o2.name, o2.uid, none⟩)
    ∧ (∀ (c : K8sClient) (pod : K8sObject) (o : OwnerReference) (job : K8sObject)
        (o2 : OwnerReference),
        getControllerOf pod = some o →
        (o.apiVersion = appsAPIVersion ∨ o.apiVersion = batchAPIVersion) →
        o.kind = KindJob → c.getJob pod.ns o.name = .ok job →
        getControllerOf job = some o2 → o2.kind ≠ KindCronJob →
        GetPodTopController c pod = .ok ⟨KindUnknown, job.ns, o2.name, o2.uid, none⟩) := by
  have hthird : ∀ o : OwnerReference,
      (o.apiVersion = appsAPIVersion ∨ o.apiVersion = batchAPIVersion) →
      ¬ (o.apiVersion ≠ appsAPIVersion ∧ o.apiVersion ≠ batchAPIVersion) := by
    intro o happ hc
    rcases happ with h | h
    · exact hc.1 h
    · exact hc.2 h
  refine ⟨?_, ?_, ?_, ?_, ?_, ?_, ?_, ?_⟩
  · intro c pod o e hown happ hkind herr
    simp only [GetPodTopController, hown]
    rw [if_neg (hthird o happ), if_pos hkind, herr]
  · intro c pod o e hown happ hkind herr
    simp only [GetPodTopController, hown]
    rw [if_neg (hthird o happ)]
    rw [if_neg (fun hc => by rw [hkind] at hc; exact absurd hc (by decide))]
    rw [if_pos hkind, herr]
  · intro c pod o e hown happ hkind herr
    simp only [GetPodTopController, hown]
    rw [if_neg (hthird o happ)]
    rw [if_neg (fun hc => by rw [hkind] at hc; exact absurd hc (by decide))]
    rw [if_neg (fun hc => by rw [hkind] at hc; exact absurd hc (by decide))]
    rw [if_pos hkind, herr]
  · intro c pod o e hown happ hkind herr
    simp only [GetPodTopController, hown]
    rw [if_neg (hthird o happ)]
    rw [if_neg (fun hc => by rw [hkind] at hc; exact absurd hc (by decide))]
    rw [if_neg (fun hc => by rw [hkind] at hc; exact absurd hc (by decide))]
    rw [if_neg (fun hc => by rw [hkind] at hc; exact absurd hc (by decide))]
    rw [if_pos hkind, herr]
  · intro c pod o rs o2 e hown happ hkind hrs ho2 hdkind herr
    simp only [GetPodTopController, hown]
    rw [if_neg (hthird o happ), if_pos hkind, hrs]
    simp only [ho2]
    rw [if_pos hdkind, herr]
  · intro c pod o job o2 e hown happ hkind hjob ho2 hckind herr
    simp only [GetPodTopController, hown]
    rw [if_neg (hthird o happ)]
    rw [if_neg (fun hc => by rw [hkind] at hc; exact absurd hc (by decide))]
    rw [if_pos hkind, hjob]
    simp only [ho2]
    rw [if_pos hckind, herr]
  · intro c pod o rs o2 hown happ hkind hrs ho2 hdkind
    simp only [GetPodTopController, hown]
    rw [if_neg (hthird o happ), if_pos hkind, hrs]
    simp only [ho2]
    rw [if_neg hdkind]
  · intro c pod o job o2 hown happ hkind hjob ho2 hckind
    simp only [GetPodTopController, hown]
    rw [if_neg (hthird o happ)]
    rw [if_neg (fun hc => by rw [hkind] at hc; exact absurd hc (by decide))]
    rw [if_pos hkind, hjob]
    simp only [ho2]
    rw [if_neg hckind]

/-- A pod controlled by a Job. -/
def podJobW : K8sObject :=
  ⟨"default", "pod-job", "uid-pod5", [⟨"batch/v1", "Job", "job1", "uid-job", true⟩]⟩

/-- A pod controlled by a StatefulSet. -/
def podSTSW : K8sObject :=
  ⟨"default", "pod-sts", "uid-pod6", [⟨"apps/v1", "StatefulSet", "sts1", "uid-sts", true⟩]⟩

/-- A Job controlled by a CronJob. -/
def jobW : K8sObject :=
  ⟨"default", "job1", "uid-job", [⟨"batch/v1", "CronJob", "cj1", "uid-cj", true⟩]⟩

/-- A ReplicaSet controlled by a third-party kind. -/
def rsFooW : K8sObject :=
  ⟨"default", "rs1", "uid-rs2", [⟨"apps/v1", "FooController", "foo2", "uid-foo2", true⟩]⟩

/-- A Job controlled by a third-party kind. -/
def jobFooW : K8sObject :=
  ⟨"default", "job1", "uid-job2", [⟨"batch/v1", "BarController", "bar2", "uid-bar2", true⟩]⟩

/-- A client failing every lookup. -/
def clientErrW : K8sClient where
  getReplicaSet := fun _ _ => .error "boom"
  getDeployment := fun _ _ => .error "boom"
  getJob := fun _ _ => .error "boom"
  getCronJob := fun _ _ => .error "boom"
  getDaemonSet := fun _ _ => .error "boom"
  getStatefulSet := fun _ _ => .error "boom"

/-- A client serving the first hop (`jobW`, `rsW`) but failing the
second-hop Deployment/CronJob lookups. -/
def clientHop2ErrW : K8sClient where
  getReplicaSet := fun _ _ => .ok rsW
  getDeployment := fun _ _ => .error "boom"
  getJob := fun _ _ => .ok jobW
  getCronJob := fun _ _ => .error "boom"
  getDaemonSet := fun _ _ => .error "boom"
  getStatefulSet := fun _ _ => .error "boom"

/-- A client whose ReplicaSet / Job are controlled by third-party kinds. -/
def clientFooW : K8sClient where
  getReplicaSet := fun _ _ => .ok rsFooW
  getDeployment := fun _ _ => .error "boom"
  getJob := fun _ _ => .ok jobFooW
  getCronJob := fun _ _ => .error "boom"
  getDaemonSet := fun _ _ => .error "boom"
  getStatefulSet := fun _ _ => .error "boom"

/-- C8 witness: the eight branches of
`GetPodTopController_error_propagation` run on concrete pods. -/
theorem GetPodTopController_error_propagation_witness :
    GetPodTopController clientErrW podRSW
      = .error (("failed to get pod '" ++ "default" ++ "/" ++ "pod-rs" ++ "' owner") ++ ": " ++ "boom")
    ∧ GetPodTopController clientErrW podJobW
      = .error (("failed to get pod '" ++ "default" ++ "/" ++ "pod-job" ++ "' owner") ++ ": " ++ "boom")
    ∧ GetPodTopController clientErrW podDSW
      = .error (("failed to get pod '" ++ "default" ++ "/" ++ "pod-ds" ++ "' owner") ++ ": " ++ "boom")
    ∧ GetPodTopController clientErrW podSTSW
      = .error (("failed to get pod '" ++ "default" ++ "/" ++ "pod-sts" ++ "' owner") ++ ": " ++ "boom")
    ∧ GetPodTopController clientHop2ErrW podRSW
      = .error (("failed to get pod '" ++ "default" ++ "/" ++ "pod-rs" ++ "' owner") ++ ": " ++ "boom")
    ∧ GetPodTopController clientHop2ErrW podJobW
      = .error (("failed to get pod '" ++ "default" ++ "/" ++ "pod-job" ++ "' owner") ++ ": " ++ "boom")
    ∧ GetPodTopController clientFooW podRSW
      = .ok ⟨KindUnknown, "default", "foo2", "uid-foo2", none⟩
    ∧ GetPodTopController clientFooW podJobW
      = .ok ⟨KindUnknown, "default", "bar2", "uid-bar2", none⟩ :=
  ⟨GetPodTopController_error_propagation.1 clientErrW podRSW _ "boom" rfl
      (Or.inl rfl) rfl rfl,
    GetPodTopController_error_propagation.2.1 clientErrW podJobW _ "boom" rfl
      (Or.inr rfl) rfl rfl,
    GetPodTopController_error_propagation.2.2.1 clientErrW podDSW _ "boom" rfl
      (Or.inl rfl) rfl rfl,
    GetPodTopController_error_propagation.2.2.2.1 clientErrW podSTSW _ "boom" rfl
      (Or.inl rfl) rfl rfl,
    GetPodTopController_error_propagation.2.2.2.2.1 clientHop2ErrW podRSW _ rsW _ "boom" rfl
      (Or.inl rfl) rfl rfl rfl rfl rfl,
    GetPodTopController_error_propagation.2.2.2.2.2.1 clientHop2ErrW podJobW _ jobW _ "boom" rfl
      (Or.inr rfl) rfl rfl rfl rfl rfl,
    GetPodTopController_error_propagation.2.2.2.2.2.2.1 clientFooW podRSW _ rsFooW _ rfl
      (Or.inl rfl) rfl rfl rfl (by decide),
    GetPodTopController_error_propagation.2.2.2.2.2.2.2 clientFooW podJobW _ jobFooW _ rfl
      (Or.inr rfl) rfl rfl rfl (by decide)⟩

/-! ### C6 / C9 supporting lemmas on the annotation resolver -/

theorem truncateIPList_ok {l l2 : List String} {msg : String}
    (h : truncateIPList l msg = .ok l2) : l2.head? = l.head? := by
  cases l with
  | nil =>
    simp only [truncateIPList] at h
    cases h
    rfl
  | cons v rest =>
    simp only [truncateIPList] at h
    split at h
    · cases h
    · cases h
      rfl

theorem mutateSubnetItem_ok {it it2 : AnnoSubnetItem} (h : mutateSubnetItem it = .ok it2) :
    it2.Interface = it.Interface ∧ it2.IPv4.head? = it.IPv4.head?
      ∧ it2.IPv6.head? = it.IPv6.head? := by
  unfold mutateSubnetItem at h
  split at h
  · cases h
  next v4 h4 =>
    split at h
    · cases h
    next v6 h6 =>
      split at h
      · cases h
      · cases h
        exact ⟨rfl, truncateIPList_ok h4, truncateIPList_ok h6⟩

theorem mutateItems_ok {l l2 : List AnnoSubnetItem} (h : mutateItems l = .ok l2) :
    l2.map (fun it => it.Interface) = l.map (fun it => it.Interface)
    ∧ l2.filterMap (fun it => it.IPv4.head?) = l.filterMap (fun it => it.IPv4.head?)
    ∧ l2.filterMap (fun it => it.IPv6.head?) = l.filterMap (fun it => it.IPv6.head?) := by
  induction l generalizing l2 with
  | nil =>
    simp only [mutateItems] at h
    cases h
    exact ⟨rfl, rfl, rfl⟩
  | cons it rest ih =>
    simp only [mutateItems] at h
    split at h
    · cases h
    next it2 hit =>
      split at h
      · cases h
      next rest2 hrest =>
        cases h
        obtain ⟨hI, h4, h6⟩ := mutateSubnetItem_ok hit
        obtain ⟨ihI, ih4, ih6⟩ := ih hrest
        refine ⟨?_, ?_, ?_⟩
        · rw [List.map_cons, List.map_cons, hI, ihI]
        · rw [List.filterMap_cons, List.filterMap_cons, h4, ih4]
        · rw [List.filterMap_cons, List.filterMap_cons, h6, ih6]

theorem mutateAndValidateSubnetAnno_dup {cfg : PodSubnetAnnoConfig}
    (hdup : ¬ (cfg.MultipleSubnets.map (fun it => it.Interface)).Nodup
      ∨ ¬ (cfg.MultipleSubnets.filterMap (fun it => it.IPv4.head?)).Nodup
      ∨ ¬ (cfg.MultipleSubnets.filterMap (fun it => it.IPv6.head?)).Nodup) :
    (mutateAndValidateSubnetAnno cfg).isOk = false := by
  have hne : cfg.MultipleSubnets ≠ [] := by
    intro hnil
    rw [hnil] at hdup
    rcases hdup with h | h | h <;> exact h (by simp)
  unfold mutateAndValidateSubnetAnno
  rw [if_pos hne]
  cases hmu : mutateItems cfg.MultipleSubnets with
  | error e => rfl
  | ok items =>
    obtain ⟨hI, h4, h6⟩ := mutateItems_ok hmu
    dsimp only
    by_cases hb : (containsDuplicate (items.filterMap fun it => it.IPv4.head?)
        || containsDuplicate (items.filterMap fun it => it.IPv6.head?)) = true
    · rw [if_pos hb]
      rfl
    · rw [if_neg hb]
      have hifb : containsDuplicate (items.map fun it => it.Interface) = true := by
        rcases hdup with h | h | h
        · rw [containsDuplicate_eq_true_iff, hI]
          exact h
        · exfalso
          apply hb
          have hv4 : containsDuplicate (items.filterMap fun it => it.IPv4.head?) = true := by
            rw [containsDuplicate_eq_true_iff, h4]
            exact h
          rw [hv4]
          rfl
        · exfalso
          apply hb
          have hv6 : containsDuplicate (items.filterMap fun it => it.IPv6.head?) = true := by
            rw [containsDuplicate_eq_true_iff, h6]
            exact h
          rw [hv6]
          exact Bool.or_true _
      rw [if_pos hifb]
      rfl

theorem resolvePoolIPNum_preserves {anno : List (String × String)} {d : Int}
    {cfg0 cfg1 : PodSubnetAnnoConfig} (h : resolvePoolIPNum anno d cfg0 = .ok cfg1) :
    cfg1.MultipleSubnets = cfg0.MultipleSubnets ∧ cfg1.SingleSubnet = cfg0.SingleSubnet := by
  unfold resolvePoolIPNum at h
  split at h
  · split at h
    · cases h
    · split at h
      · cases h
      · split at h
        · cases h
          exact ⟨rfl, rfl⟩
        · cases h
          exact ⟨rfl, rfl⟩
  · cases h
    exact ⟨rfl, rfl⟩

theorem subnetAnnoPostProcess_dup {anno : List (String × String)} {d : Int}
    {cfg0 : PodSubnetAnnoConfig}
    (hdup : ¬ (cfg0.MultipleSubnets.map (fun it => it.Interface)).Nodup
      ∨ ¬ (cfg0.MultipleSubnets.filterMap (fun it => it.IPv4.head?)).Nodup
      ∨ ¬ (cfg0.MultipleSubnets.filterMap (fun it => it.IPv6.head?)).Nodup) :
    (subnetAnnoPostProcess anno d cfg0).isOk = false := by
  unfold subnetAnnoPostProcess
  split
  · rfl
  next cfg1 hr =>
    split
    · rfl
    next reclaim hs =>
      split
      · rfl
      next cfg2 hm =>
        exfalso
        have hmul : ({ cfg1 with ReclaimIPPool := reclaim } : PodSubnetAnnoConfig).MultipleSubnets
            = cfg0.MultipleSubnets := (resolvePoolIPNum_preserves hr).1
        have hko := @mutateAndValidateSubnetAnno_dup
          { cfg1 with ReclaimIPPool := reclaim } (by rw [hmul]; exact hdup)
        rw [hm] at hko
        cases hko

theorem mutateAndValidateSubnetAnno_single_none {cfg cfg2 : PodSubnetAnnoConfig}
    (h : mutateAndValidateSubnetAnno cfg = .ok cfg2) (hs : cfg.SingleSubnet = none) :
    cfg2.SingleSubnet = none := by
  unfold mutateAndValidateSubnetAnno at h
  split at h
  · split at h
    · cases h
    · split at h
      · cases h
      · split at h
        · cases h
        · cases h
          exact hs
  · rw [hs] at h
    cases h

theorem subnetAnnoPostProcess_single_none {anno : List (String × String)} {d : Int}
    {cfg0 cfg : PodSubnetAnnoConfig}
    (h : subnetAnnoPostProcess anno d cfg0 = .ok (some cfg)) (h0 : cfg0.SingleSubnet = none) :
    cfg.SingleSubnet = none := by
  unfold subnetAnnoPostProcess at h
  split at h
  · cases h
  next cfg1 hr =>
    split at h
    · cases h
    next reclaim hs =>
      split at h
      · cases h
      next cfg2 hm =>
        cases h
        apply mutateAndValidateSubnetAnno_single_none hm
        show cfg1.SingleSubnet = none
        rw [(resolvePoolIPNum_preserves hr).2, h0]

theorem subnetAnnoPostProcess_ne_ok_none (anno : List (String × String)) (d : Int)
    (cfg0 : PodSubnetAnnoConfig) : subnetAnnoPostProcess anno d cfg0 ≠ .ok none := by
  intro h
  unfold subnetAnnoPostProcess at h
  split at h
  · cases h
  next cfg1 hr =>
    split at h
    · cases h
    next reclaim hs =>
      split at h
      · cases h
      next cfg2 hm => cases h

/-! ### C6 — duplicate subnets / interfaces are rejected -/

/-- C6: whenever the decoded `MultipleSubnets` list carries two entries
with the same interface name, or two entries with the same first IPv4
value, or two entries with the same first IPv6 value (each entry's list
normalized to at most its first element — `head?` of the original lists),
the annotation resolver returns an error and no config, for every parser,
default count and annotation map reaching that list. -/
theorem GetSubnetAnnoConfig_rejects_duplicates
    (parseSubnetsJSON : String → Except String (List AnnoSubnetItem))
    (parseSubnetJSON : String → Except String AnnoSubnetItem)
    (d : Int) (podAnnotations : List (String × String)) (v : String)
    (items : List AnnoSubnetItem)
    (hlk : podAnnotations.lookup AnnoSpiderSubnets = some v)
    (hp : parseSubnetsJSON v = .ok items)
    (hdup : ¬ (items.map (fun it => it.Interface)).Nodup
      ∨ ¬ (items.filterMap (fun it => it.IPv4.head?)).Nodup
      ∨ ¬ (items.filterMap (fun it => it.IPv6.head?)).Nodup) :
    (GetSubnetAnnoConfig parseSubnetsJSON parseSubnetJSON d podAnnotations).isOk = false := by
  unfold GetSubnetAnnoConfig
  rw [hlk]
  dsimp only
  rw [hp]
  dsimp only
  exact subnetAnnoPostProcess_dup hdup

/-- C6 witness: two entries sharing the interface name `net1` are
rejected by the resolver. -/
theorem GetSubnetAnnoConfig_rejects_duplicates_witness :
    (GetSubnetAnnoConfig
      (fun _ => .ok [⟨"net1", ["10.0.0.0/16"], []⟩, ⟨"net1", ["10.1.0.0/16"], []⟩])
      (fun _ => .error "unused") 1 [(AnnoSpiderSubnets, "dup")]).isOk = false :=
  GetSubnetAnnoConfig_rejects_duplicates
    (fun _ => .ok [⟨"net1", ["10.0.0.0/16"], []⟩, ⟨"net1", ["10.1.0.0/16"], []⟩])
    (fun _ => .error "unused") 1 [(AnnoSpiderSubnets, "dup")] "dup"
    [⟨"net1", ["10.0.0.0/16"], []⟩, ⟨"net1", ["10.1.0.0/16"], []⟩]
    rfl rfl (Or.inl (by decide))

/-! ### C9 — the resolver's `nil, nil` contract and multi-subnet precedence -/

/-- C9: `GetSubnetAnnoConfig` answers `ok none` (Go `nil, nil`) exactly
when neither subnet annotation is present; and whenever the multi-subnet
annotation is present, any successfully returned config has
`SingleSubnet` unset (the multi-subnet annotation wins; the single-subnet
annotation is never consulted).  A parsing or validation failure is an
`Except.error`, which by construction carries no config. -/
theorem GetSubnetAnnoConfig_contract
    (parseSubnetsJSON : String → Except String (List AnnoSubnetItem))
    (parseSubnetJSON : String → Except String AnnoSubnetItem)
    (d : Int) (podAnnotations : List (String × String)) :
    (GetSubnetAnnoConfig parseSubnetsJSON parseSubnetJSON d podAnnotations = .ok none ↔
      podAnnotations.lookup AnnoSpiderSubnets = none
        ∧ podAnnotations.lookup AnnoSpiderSubnet = none)
    ∧ (∀ (v : String) (cfg : PodSubnetAnnoConfig),
        podAnnotations.lookup AnnoSpiderSubnets = some v →
        GetSubnetAnnoConfig parseSubnetsJSON parseSubnetJSON d podAnnotations = .ok (some cfg) →
        cfg.SingleSubnet = none) := by
  constructor
  · constructor
    · intro h
      unfold GetSubnetAnnoConfig at h
      split at h
      next v hm =>
        split at h
        next e hp => cases h
        next ms hp => exact absurd h (subnetAnnoPostProcess_ne_ok_none _ _ _)
      next hm =>
        split at h
        next v hs =>
          split at h
          next e hp => cases h
          next s hp => exact absurd h (subnetAnnoPostProcess_ne_ok_none _ _ _)
        next hs => exact ⟨hm, hs⟩
    · rintro ⟨hm, hs⟩
      unfold GetSubnetAnnoConfig
      rw [hm]
      dsimp only
      rw [hs]
  · intro v cfg hm h
    unfold GetSubnetAnnoConfig at h
    rw [hm] at h
    dsimp only at h
    split at h
    next e hp => cases h
    next ms hp => exact subnetAnnoPostProcess_single_none h rfl

/-- C9 witness: with both annotations present and a decodable
multi-subnet value the resolver returns a config whose `SingleSubnet` is
unset, via the second part of the contract at a concrete run. -/
theorem GetSubnetAnnoConfig_contract_witness :
    (⟨[⟨"eth0", ["10.0.0.0/16"], []⟩], none, 0, some 3, true⟩ : PodSubnetAnnoConfig).SingleSubnet
      = none :=
  (GetSubnetAnnoConfig_contract
      (fun _ => .ok [⟨"eth0", ["10.0.0.0/16"], []⟩]) (fun _ => .error "unused") 3
      [(AnnoSpiderSubnets, "[]"), (AnnoSpiderSubnet, "x")]).2 "[]"
    ⟨[⟨"eth0", ["10.0.0.0/16"], []⟩], none, 0, some 3, true⟩ rfl (by decide)

/-! ### C10 — `GetPoolIPNumber` parses only the suffix after the `+` -/

theorem cutList_append_plus {a : List Char} (b : List Char) (ha : '+' ∉ a) :
    cutList '+' (a ++ '+' :: b) = some (a, b) := by
  induction a with
  | nil => simp [cutList]
  | cons x xs ih =>
    have hx : x ≠ '+' := fun h => ha (h ▸ List.mem_cons_self x xs)
    have ha2 : '+' ∉ xs := fun h => ha (List.mem_cons_of_mem _ h)
    simp only [List.cons_append, cutList, if_neg hx, List.append_eq, ih ha2]

/-- C10: for an input with exactly one `+`, only the text after the `+`
is parsed — the prefix is discarded entirely: the call succeeds with
`(true, n)` exactly when `strconv.Atoi` accepts the suffix as `n`, and
errors exactly when it rejects the suffix (so `"abc+7"` and `"5+7"` both
give `(true, 7)`, while `"7+"` errors on the empty suffix).  A plain
negative number such as `"-5"` parses fine as `(false, -5)`; the
negative-count rejection happens only in the caller
`GetSubnetAnnoConfig`, shown by the final conjunct. -/
theorem GetPoolIPNumber_suffix_only :
    (∀ a b : String, '+' ∉ a.data → '+' ∉ b.data →
      ((∀ n : Int, GetPoolIPNumber (a ++ "+" ++ b) = .ok (true, n) ↔ goAtoi b.data = some n)
        ∧ ((GetPoolIPNumber (a ++ "+" ++ b)).isOk = false ↔ goAtoi b.data = none)))
    ∧ GetPoolIPNumber "abc+7" = .ok (true, 7)
    ∧ GetPoolIPNumber "5+7" = .ok (true, 7)
    ∧ (GetPoolIPNumber "7+").isOk = false
    ∧ GetPoolIPNumber "-5" = .ok (false, -5)
    ∧ (GetSubnetAnnoConfig (fun _ => .ok [⟨"eth0", ["10.0.0.0/16"], []⟩])
        (fun _ => .error "unused") 1
        [(AnnoSpiderSubnets, "subnets"), (AnnoSpiderSubnetPoolIPNumber, "-5")]).isOk
      = false := by
  refine ⟨?_, by decide, by decide, by decide, by decide, by decide⟩
  intro a b ha hb
  have hdata : (a ++ "+" ++ b).data = a.data ++ '+' :: b.data := by
    have hplus : ("+" : String).data = ['+'] := rfl
    simp [String.data_append, hplus]
  have hcount : (a ++ "+" ++ b).data.count '+' = 1 := by
    rw [hdata]
    have hca : a.data.count '+' = 0 := List.count_eq_zero.mpr ha
    have hcb : b.data.count '+' = 0 := List.count_eq_zero.mpr hb
    simp [List.count_append, List.count_cons, hca, hcb]
  have hcut : cutList '+' (a ++ "+" ++ b).data = some (a.data, b.data) := by
    rw [hdata]
    exact cutList_append_plus _ ha
  unfold GetPoolIPNumber
  rw [hcount, if_pos (Or.inr rfl), hcut]
  dsimp only
  constructor
  · intro n
    cases hA : goAtoi b.data with
    | none =>
      dsimp only
      constructor
      · intro h
        cases h
      · intro h
        cases h
    | some m =>
      dsimp only
      constructor
      · intro h
        cases h
        rfl
      · intro h
        cases h
        rfl
  · cases hA : goAtoi b.data with
    | none =>
      dsimp only
      exact ⟨fun _ => rfl, fun _ => rfl⟩
    | some m =>
      dsimp only
      constructor
      · intro h
        cases h
      · intro h
        cases h

/-- C10 witness: the universal suffix rule applied at the concrete prefix
`"ab"` and suffix `"7"`. -/
theorem GetPoolIPNumber_suffix_only_witness :
    GetPoolIPNumber ("ab" ++ "+" ++ "7") = .ok (true, 7) :=
  ((GetPoolIPNumber_suffix_only.1 "ab" "7" (by decide) (by decide)).1 7).mpr (by decide)
